import Mathlib

/-!
Verification of `src_python/habitat_sim/utils/settings.py` (habitat-sim
settings resolver).  The Python module translates a flat settings dictionary
into simulator / agent / sensor configuration objects.  We embed the module
shallowly:

* a Python dictionary with a known set of relevant keys becomes a structure
  of `Option`-typed fields (`none` = key absent);
* fields of the engine-provided configuration objects that the resolver may
  leave untouched are `EVal`-typed: `EVal.engineDefault` marks "still at the
  engine's built-in default", `EVal.set v` marks an explicit assignment;
* Python numbers are `ℚ` (no arithmetic is performed on them, they are only
  copied), `KeyError` becomes `Except.error (PyErr.keyError k)`.
-/

/-- Python substring test on characters: does the second list start with the
first one? (helper for the embedding of Python's `in` operator). -/
def charsStartWith : List Char → List Char → Bool
  | [], _ => true
  | _ :: _, [] => false
  | a :: as, b :: bs => a == b && charsStartWith as bs

/-- Does the second list contain the first as a contiguous sublist? -/
def charsContain (needle : List Char) : List Char → Bool
  | [] => needle.isEmpty
  | c :: rest => charsStartWith needle (c :: rest) || charsContain needle rest

/-- Embedding of Python's `needle in hay` substring test on strings. -/
def strContains (hay needle : String) : Bool :=
  charsContain needle.toList hay.toList

/-- A field of an engine-constructed object: either still at the engine's
built-in default (never touched by the resolver) or explicitly assigned. -/
inductive EVal (α : Type) where
  | engineDefault
  | set (a : α)
deriving DecidableEq, Repr

/-- `setattr` guarded by presence of a keyword argument: an absent keyword
argument leaves the field as it was. -/
def EVal.apply {α : Type} (v : EVal α) (o : Option α) : EVal α :=
  match o with
  | some a => EVal.set a
  | none => v

/-- Errors the Python function can raise. -/
inductive PyErr where
  /-- Python `KeyError` from indexing a dict with an absent key. -/
  | keyError (key : String)
  /-- Python `RuntimeError` (raised by the `hasattr` API-version probe). -/
  | runtimeError (msg : String)
deriving DecidableEq, Repr

/-- Indexing a Python dict field: `settings[k]` raises `KeyError(k)` when the
key is absent. -/
def getKey {α : Type} (o : Option α) (k : String) : Except PyErr α :=
  match o with
  | some v => Except.ok v
  | none => Except.error (PyErr.keyError k)

/-- A 3-element numeric list such as a position or orientation value. -/
structure Vec3 where
  x : ℚ
  y : ℚ
  z : ℚ
deriving DecidableEq, Repr

/-- The relevant values of the external enum `habitat_sim.SensorType`
(the resolver only distinguishes `COLOR` from the rest). -/
inductive SensorType where
  | color
  | depth
  | normal
  | semantic
deriving DecidableEq, Repr

/-- The relevant values of the external enum `habitat_sim.SensorSubType`. -/
inductive SensorSubType where
  | pinhole
  | orthographic
  | equirectangular
  | fisheye
deriving DecidableEq, Repr

/-- The external enum `habitat_sim.FisheyeSensorModelType`. -/
inductive FisheyeSensorModelType where
  | doubleSphere
deriving DecidableEq, Repr

/-- A per-sensor settings dictionary: the keys the resolver reads, each
optional (`none` = key absent from the dict). -/
structure SensorSettings where
  hfov : Option ℚ := none
  position : Option Vec3 := none
  orientation : Option Vec3 := none
  sensor_type : Option SensorType := none
  sensor_subtype : Option SensorSubType := none
deriving DecidableEq, Repr

/-- The sensor settings dictionary `{}` (no keys). -/
def emptySensorSettings : SensorSettings := {}

/-- The top-level settings dictionary: the keys `make_cfg` (or the default
table) mentions, each optional (`none` = key absent). -/
structure SimSettings where
  scene_dataset_config_file : Option String := none
  scene : Option String := none
  width : Option Int := none
  height : Option Int := none
  default_agent : Option Int := none
  seed : Option Int := none
  physics_config_file : Option String := none
  scene_light_setup : Option String := none
  enable_physics : Option Bool := none
  frustum_culling : Option Bool := none
  gpu_device_id : Option Int := none
  sensors : Option (List (String × SensorSettings)) := none
deriving DecidableEq, Repr

/-- `default_sim_settings` from the source module. -/
def default_sim_settings : SimSettings :=
  { scene_dataset_config_file := some "default"
    scene := some "NONE"
    width := some 640
    height := some 480
    default_agent := some 0
    seed := some 1
    physics_config_file := some "data/default.physics_config.json"
    sensors := some [("color_sensor", emptySensorSettings)] }

/-- `default_sensor_settings` from the source module (the `sensor_type` and
`sensor_subtype` entries are commented out in the source, hence absent). -/
def default_sensor_settings : SensorSettings :=
  { hfov := some 90
    position := some ⟨0, 1.5, 0⟩
    orientation := some ⟨0, 0, 0⟩ }

/-- Python dict merge `{**d, **c}`: keys of `c` override keys of `d`. -/
def mergeSensorSettings (d c : SensorSettings) : SensorSettings :=
  { hfov := c.hfov <|> d.hfov
    position := c.position <|> d.position
    orientation := c.orientation <|> d.orientation
    sensor_type := c.sensor_type <|> d.sensor_type
    sensor_subtype := c.sensor_subtype <|> d.sensor_subtype }

/-- `habitat_sim.SimulatorConfiguration` restricted to the fields the
resolver touches; `EVal.engineDefault` marks a field left at the engine's
built-in default. `scene_id` is always assigned on the success path. -/
structure SimulatorConfiguration where
  scene_dataset_config_file : EVal String
  frustum_culling : Bool
  enable_physics : EVal Bool
  physics_config_file : EVal String
  scene_light_setup : EVal String
  gpu_device_id : Int
  scene_id : String
deriving DecidableEq, Repr

/-- `habitat_sim.CameraSensorSpec` restricted to the fields assigned by the
resolver; the resolution is the `[height, width]` pair. -/
structure CameraSensorSpec where
  uuid : EVal String := EVal.engineDefault
  hfov : EVal ℚ := EVal.engineDefault
  position : EVal Vec3 := EVal.engineDefault
  orientation : EVal Vec3 := EVal.engineDefault
  resolution : EVal (Int × Int) := EVal.engineDefault
  sensor_type : EVal SensorType := EVal.engineDefault
  sensor_subtype : EVal SensorSubType := EVal.engineDefault
  channels : EVal ℕ := EVal.engineDefault
deriving DecidableEq, Repr

/-- `habitat_sim.FisheyeSensorDoubleSphereSpec` restricted to the fields
assigned by the resolver. `principal_point_offset` holds an optional pair:
`some none` models an explicit assignment of Python `None` (centered). -/
structure FisheyeSensorSpec where
  sensor_model_type : EVal FisheyeSensorModelType := EVal.engineDefault
  xi : EVal ℚ := EVal.engineDefault
  alpha : EVal ℚ := EVal.engineDefault
  focal_length : EVal (ℚ × ℚ) := EVal.engineDefault
  principal_point_offset : EVal (Option (ℚ × ℚ)) := EVal.engineDefault
  uuid : EVal String := EVal.engineDefault
  position : EVal Vec3 := EVal.engineDefault
  orientation : EVal Vec3 := EVal.engineDefault
  resolution : EVal (Int × Int) := EVal.engineDefault
  sensor_type : EVal SensorType := EVal.engineDefault
  channels : EVal ℕ := EVal.engineDefault
deriving DecidableEq, Repr

/-- `habitat_sim.EquirectangularSensorSpec` restricted to the fields assigned
by the resolver. -/
structure EquirectangularSensorSpec where
  uuid : EVal String := EVal.engineDefault
  position : EVal Vec3 := EVal.engineDefault
  orientation : EVal Vec3 := EVal.engineDefault
  resolution : EVal (Int × Int) := EVal.engineDefault
  sensor_type : EVal SensorType := EVal.engineDefault
  channels : EVal ℕ := EVal.engineDefault
deriving DecidableEq, Repr

/-- One produced sensor descriptor (one of the three spec classes). -/
inductive SensorSpec where
  | camera (c : CameraSensorSpec)
  | fisheye (f : FisheyeSensorSpec)
  | equirect (e : EquirectangularSensorSpec)
deriving DecidableEq, Repr

/-- Keyword arguments accepted by `create_camera_spec` (`none` = keyword not
supplied, so the corresponding `setattr` does not happen). -/
structure CameraKw where
  uuid : Option String := none
  hfov : Option ℚ := none
  position : Option Vec3 := none
  orientation : Option Vec3 := none
  resolution : Option (Int × Int) := none
  sensor_type : Option SensorType := none
  sensor_subtype : Option SensorSubType := none
  channels : Option ℕ := none
deriving DecidableEq, Repr

/-- Keyword arguments accepted by `create_fisheye_spec`. -/
structure FisheyeKw where
  uuid : Option String := none
  position : Option Vec3 := none
  orientation : Option Vec3 := none
  resolution : Option (Int × Int) := none
  sensor_type : Option SensorType := none
  channels : Option ℕ := none
  xi : Option ℚ := none
  alpha : Option ℚ := none
  focal_length : Option (ℚ × ℚ) := none
  principal_point_offset : Option (Option (ℚ × ℚ)) := none
deriving DecidableEq, Repr

/-- Keyword arguments accepted by `create_equirect_spec`. -/
structure EquirectKw where
  uuid : Option String := none
  position : Option Vec3 := none
  orientation : Option Vec3 := none
  resolution : Option (Int × Int) := none
  sensor_type : Option SensorType := none
  channels : Option ℕ := none
deriving DecidableEq, Repr

/-- `create_camera_spec` from the source: a fresh `CameraSensorSpec` with
every supplied keyword argument assigned over the engine defaults. -/
def create_camera_spec (kw : CameraKw) : CameraSensorSpec :=
  { uuid := EVal.engineDefault.apply kw.uuid
    hfov := EVal.engineDefault.apply kw.hfov
    position := EVal.engineDefault.apply kw.position
    orientation := EVal.engineDefault.apply kw.orientation
    resolution := EVal.engineDefault.apply kw.resolution
    sensor_type := EVal.engineDefault.apply kw.sensor_type
    sensor_subtype := EVal.engineDefault.apply kw.sensor_subtype
    channels := EVal.engineDefault.apply kw.channels }

/-- `create_fisheye_spec` from the source: the double-sphere model type and
the fixed GoPro lens constants are assigned first, then every supplied
keyword argument is assigned over them. -/
def create_fisheye_spec (kw : FisheyeKw) : FisheyeSensorSpec :=
  { sensor_model_type := EVal.set FisheyeSensorModelType.doubleSphere
    xi := (EVal.set (-0.27 : ℚ)).apply kw.xi
    alpha := (EVal.set (0.57 : ℚ)).apply kw.alpha
    focal_length := (EVal.set ((364.84 : ℚ), (364.86 : ℚ))).apply kw.focal_length
    principal_point_offset := (EVal.set none).apply kw.principal_point_offset
    uuid := EVal.engineDefault.apply kw.uuid
    position := EVal.engineDefault.apply kw.position
    orientation := EVal.engineDefault.apply kw.orientation
    resolution := EVal.engineDefault.apply kw.resolution
    sensor_type := EVal.engineDefault.apply kw.sensor_type
    channels := EVal.engineDefault.apply kw.channels }

/-- `create_equirect_spec` from the source. -/
def create_equirect_spec (kw : EquirectKw) : EquirectangularSensorSpec :=
  { uuid := EVal.engineDefault.apply kw.uuid
    position := EVal.engineDefault.apply kw.position
    orientation := EVal.engineDefault.apply kw.orientation
    resolution := EVal.engineDefault.apply kw.resolution
    sensor_type := EVal.engineDefault.apply kw.sensor_type
    channels := EVal.engineDefault.apply kw.channels }

/-- `ActuationSpec(amount=...)` of `habitat_sim.agent`. -/
structure ActuationSpec where
  amount : ℚ
deriving DecidableEq, Repr

/-- `ActionSpec(name, actuation)` of `habitat_sim.agent`. -/
structure ActionSpec where
  name : String
  actuation : ActuationSpec
deriving DecidableEq, Repr

/-- `habitat_sim.agent.AgentConfiguration` restricted to the two fields the
resolver assigns. -/
structure AgentConfiguration where
  sensor_specifications : List SensorSpec
  action_space : List (String × ActionSpec)
deriving DecidableEq, Repr

/-- `habitat_sim.Configuration(sim_cfg, agents)`. -/
structure Configuration where
  sim_cfg : SimulatorConfiguration
  agents : List AgentConfiguration
deriving DecidableEq, Repr

/-- The body of the `for uuid, sensor_cfg in settings["sensors"].items()`
loop of `make_cfg`: merge with the default sensor template, derive type,
subtype and channels, and dispatch on the uuid substring. Dict reads are
performed in the source's evaluation order. -/
def buildSensorSpec (settings : SimSettings) (uuid : String)
    (sensor_cfg0 : SensorSettings) : Except PyErr SensorSpec := do
  let sensor_cfg := mergeSensorSettings default_sensor_settings sensor_cfg0
  let sensor_type := sensor_cfg.sensor_type.getD SensorType.color
  let sensor_subtype := sensor_cfg.sensor_subtype.getD SensorSubType.pinhole
  let channels : ℕ := if sensor_type = SensorType.color then 4 else 1
  if strContains uuid "fisheye" then
    let position ← getKey sensor_cfg.position "position"
    let orientation ← getKey sensor_cfg.orientation "orientation"
    let height ← getKey settings.height "height"
    let width ← getKey settings.width "width"
    return SensorSpec.fisheye (create_fisheye_spec
      { uuid := some uuid
        position := some position
        orientation := some orientation
        resolution := some (height, width)
        sensor_type := some sensor_type
        channels := some channels })
  else if strContains uuid "equirect" then
    let position ← getKey sensor_cfg.position "position"
    let orientation ← getKey sensor_cfg.orientation "orientation"
    let height ← getKey settings.height "height"
    let width ← getKey settings.width "width"
    return SensorSpec.equirect (create_equirect_spec
      { uuid := some uuid
        position := some position
        orientation := some orientation
        resolution := some (height, width)
        sensor_type := some sensor_type
        channels := some channels })
  else
    let hfov ← getKey sensor_cfg.hfov "hfov"
    let position ← getKey sensor_cfg.position "position"
    let orientation ← getKey sensor_cfg.orientation "orientation"
    let height ← getKey settings.height "height"
    let width ← getKey settings.width "width"
    return SensorSpec.camera (create_camera_spec
      { uuid := some uuid
        hfov := some hfov
        position := some position
        orientation := some orientation
        resolution := some (height, width)
        sensor_type := some sensor_type
        sensor_subtype := some sensor_subtype
        channels := some channels })

/-- The sensor loop of `make_cfg`: build one spec per entry, in order,
propagating the first error. -/
def buildSensorSpecs (settings : SimSettings) :
    List (String × SensorSettings) → Except PyErr (List SensorSpec)
  | [] => Except.ok []
  | (uuid, cfg) :: rest => do
    let spec ← buildSensorSpec settings uuid cfg
    let specs ← buildSensorSpecs settings rest
    return spec :: specs

/-- The hardcoded `action_space` dictionary assigned by `make_cfg`. -/
def make_action_space : List (String × ActionSpec) :=
  [("move_forward", ⟨"move_forward", ⟨0.25⟩⟩),
   ("turn_left", ⟨"turn_left", ⟨10⟩⟩),
   ("turn_right", ⟨"turn_right", ⟨10⟩⟩)]

/-- `make_cfg` from the source.  Field assignments and dict reads follow the
source's order; the `hasattr(sim_cfg, "scene_id")` probe always succeeds in
the embedding (our `SimulatorConfiguration` has the field), so the
`RuntimeError` branch is dead and `settings["scene"]` is read next. -/
def make_cfg (settings : SimSettings) : Except PyErr Configuration := do
  let scene_dataset_config_file :=
    (EVal.engineDefault : EVal String).apply settings.scene_dataset_config_file
  let frustum_culling := settings.frustum_culling.getD false
  let enable_physics :=
    (EVal.engineDefault : EVal Bool).apply settings.enable_physics
  let physics_config_file :=
    (EVal.engineDefault : EVal String).apply settings.physics_config_file
  let scene_light_setup :=
    (EVal.engineDefault : EVal String).apply settings.scene_light_setup
  let gpu_device_id : Int := 0
  let scene_id ← getKey settings.scene "scene"
  let sensorsDict ← getKey settings.sensors "sensors"
  let sensor_specs ← buildSensorSpecs settings sensorsDict
  let agent_cfg : AgentConfiguration :=
    { sensor_specifications := sensor_specs
      action_space := make_action_space }
  return { sim_cfg :=
            { scene_dataset_config_file := scene_dataset_config_file
              frustum_culling := frustum_culling
              enable_physics := enable_physics
              physics_config_file := physics_config_file
              scene_light_setup := scene_light_setup
              gpu_device_id := gpu_device_id
              scene_id := scene_id }
           agents := [agent_cfg] }

deriving instance DecidableEq for Except

/-- Projection: the `resolution` field of any produced sensor descriptor. -/
def SensorSpec.resolution : SensorSpec → EVal (Int × Int)
  | SensorSpec.camera c => c.resolution
  | SensorSpec.fisheye f => f.resolution
  | SensorSpec.equirect e => e.resolution

/-- Projection: the `channels` field of any produced sensor descriptor. -/
def SensorSpec.channels : SensorSpec → EVal ℕ
  | SensorSpec.camera c => c.channels
  | SensorSpec.fisheye f => f.channels
  | SensorSpec.equirect e => e.channels

/-- The three descriptor kinds a sensor entry can produce. -/
inductive SensorKind where
  | camera
  | fisheye
  | equirect
deriving DecidableEq, Repr

/-- Projection: which descriptor kind a produced sensor spec is. -/
def SensorSpec.kind : SensorSpec → SensorKind
  | SensorSpec.camera _ => SensorKind.camera
  | SensorSpec.fisheye _ => SensorKind.fisheye
  | SensorSpec.equirect _ => SensorKind.equirect

def twoSensorList : List (String × SensorSettings) :=
  [("a", emptySensorSettings), ("b", emptySensorSettings)]

def twoSensorSettings : SimSettings :=
  { scene := some "x", height := some 480, width := some 640,
    sensors := some twoSensorList }

def c6Settings : SimSettings :=
  { scene := some "x", sensors := some [], enable_physics := some true,
    gpu_device_id := some 7 }

def settingsOnlyScene : SimSettings := { scene := some "x" }

def settingsNoHeight : SimSettings :=
  { scene := some "x", sensors := some [("a", emptySensorSettings)] }

def settingsNoWidth : SimSettings :=
  { scene := some "x", height := some 480,
    sensors := some [("a", emptySensorSettings)] }


/-- The merged record always resolves a position (the template supplies one). -/
theorem merged_position_some (c : SensorSettings) :
    (mergeSensorSettings default_sensor_settings c).position
      = some (c.position.getD ⟨0, 1.5, 0⟩) := by
  rcases h : c.position <;>
    simp [mergeSensorSettings, default_sensor_settings, h]

/-- The merged record always resolves an orientation. -/
theorem merged_orientation_some (c : SensorSettings) :
    (mergeSensorSettings default_sensor_settings c).orientation
      = some (c.orientation.getD ⟨0, 0, 0⟩) := by
  rcases h : c.orientation <;>
    simp [mergeSensorSettings, default_sensor_settings, h]

/-- The merged record always resolves an hfov (the template supplies 90). -/
theorem merged_hfov_some (c : SensorSettings) :
    (mergeSensorSettings default_sensor_settings c).hfov
      = some (c.hfov.getD 90) := by
  rcases h : c.hfov <;>
    simp [mergeSensorSettings, default_sensor_settings, h]

/-- Characterization of one loop iteration when the shared height and width
are present: the produced descriptor, in each of the three dispatch
branches. -/
theorem buildSensorSpec_eq (s : SimSettings) (u : String) (c : SensorSettings)
    (hv wv : Int) (hh : s.height = some hv) (hw : s.width = some wv) :
    buildSensorSpec s u c = Except.ok (
      if strContains u "fisheye" then
        SensorSpec.fisheye (create_fisheye_spec
          { uuid := some u
            position := some (c.position.getD ⟨0, 1.5, 0⟩)
            orientation := some (c.orientation.getD ⟨0, 0, 0⟩)
            resolution := some (hv, wv)
            sensor_type := some ((mergeSensorSettings default_sensor_settings
              c).sensor_type.getD SensorType.color)
            channels := some (if (mergeSensorSettings default_sensor_settings
              c).sensor_type.getD SensorType.color = SensorType.color
              then 4 else 1) })
      else if strContains u "equirect" then
        SensorSpec.equirect (create_equirect_spec
          { uuid := some u
            position := some (c.position.getD ⟨0, 1.5, 0⟩)
            orientation := some (c.orientation.getD ⟨0, 0, 0⟩)
            resolution := some (hv, wv)
            sensor_type := some ((mergeSensorSettings default_sensor_settings
              c).sensor_type.getD SensorType.color)
            channels := some (if (mergeSensorSettings default_sensor_settings
              c).sensor_type.getD SensorType.color = SensorType.color
              then 4 else 1) })
      else
        SensorSpec.camera (create_camera_spec
          { uuid := some u
            hfov := some (c.hfov.getD 90)
            position := some (c.position.getD ⟨0, 1.5, 0⟩)
            orientation := some (c.orientation.getD ⟨0, 0, 0⟩)
            resolution := some (hv, wv)
            sensor_type := some ((mergeSensorSettings default_sensor_settings
              c).sensor_type.getD SensorType.color)
            sensor_subtype := some ((mergeSensorSettings
              default_sensor_settings c).sensor_subtype.getD
              SensorSubType.pinhole)
            channels := some (if (mergeSensorSettings default_sensor_settings
              c).sensor_type.getD SensorType.color = SensorType.color
              then 4 else 1) })) := by
  by_cases hf : strContains u "fisheye" <;>
    by_cases he : strContains u "equirect" <;>
    simp [buildSensorSpec, hf, he, hh, hw, merged_position_some,
      merged_orientation_some, merged_hfov_some, getKey, Bind.bind,
      Except.bind, pure, Except.pure]

/-- A missing `height` key fails every loop iteration with `KeyError`. -/
theorem buildSensorSpec_missing_height (s : SimSettings) (u : String)
    (c : SensorSettings) (hh : s.height = none) :
    buildSensorSpec s u c = Except.error (PyErr.keyError "height") := by
  by_cases hf : strContains u "fisheye" <;>
    by_cases he : strContains u "equirect" <;>
    simp [buildSensorSpec, hf, he, hh, merged_position_some,
      merged_orientation_some, merged_hfov_some, getKey, Bind.bind,
      Except.bind]

/-- With `height` present but `width` missing, every loop iteration fails
with `KeyError "width"`. -/
theorem buildSensorSpec_missing_width (s : SimSettings) (u : String)
    (c : SensorSettings) (hv : Int) (hh : s.height = some hv)
    (hw : s.width = none) :
    buildSensorSpec s u c = Except.error (PyErr.keyError "width") := by
  by_cases hf : strContains u "fisheye" <;>
    by_cases he : strContains u "equirect" <;>
    simp [buildSensorSpec, hf, he, hh, hw, merged_position_some,
      merged_orientation_some, merged_hfov_some, getKey, Bind.bind,
      Except.bind]

/-- Inversion of one successful loop iteration. -/
theorem buildSensorSpec_ok_inv {s : SimSettings} {u : String}
    {c : SensorSettings} {out : SensorSpec}
    (h : buildSensorSpec s u c = Except.ok out) :
    ∃ hv wv, s.height = some hv ∧ s.width = some wv ∧
      buildSensorSpec s u c = Except.ok out := by
  rcases hh : s.height with _ | hv
  · rw [buildSensorSpec_missing_height s u c hh] at h
    exact absurd h (by simp)
  rcases hw : s.width with _ | wv
  · rw [buildSensorSpec_missing_width s u c hv hh hw] at h
    exact absurd h (by simp)
  exact ⟨hv, wv, rfl, rfl, h⟩

/-- Inversion of a successful `make_cfg` run. -/
theorem make_cfg_ok_inv {s : SimSettings} {cfg : Configuration}
    (h : make_cfg s = Except.ok cfg) :
    ∃ sc m specs, s.scene = some sc ∧ s.sensors = some m ∧
      buildSensorSpecs s m = Except.ok specs ∧
      cfg = { sim_cfg :=
               { scene_dataset_config_file :=
                   (EVal.engineDefault : EVal String).apply s.scene_dataset_config_file
                 frustum_culling := s.frustum_culling.getD false
                 enable_physics := (EVal.engineDefault : EVal Bool).apply s.enable_physics
                 physics_config_file :=
                   (EVal.engineDefault : EVal String).apply s.physics_config_file
                 scene_light_setup :=
                   (EVal.engineDefault : EVal String).apply s.scene_light_setup
                 gpu_device_id := 0
                 scene_id := sc }
              agents := [{ sensor_specifications := specs
                           action_space := make_action_space }] } := by
  cases hsc : s.scene with
  | none => simp [make_cfg, hsc, getKey, Bind.bind, Except.bind] at h
  | some sc =>
    cases hm : s.sensors with
    | none => simp [make_cfg, hsc, hm, getKey, Bind.bind, Except.bind] at h
    | some m =>
      cases hsp : buildSensorSpecs s m with
      | error e =>
        simp [make_cfg, hsc, hm, hsp, getKey, Bind.bind, Except.bind] at h
      | ok specs =>
        simp only [make_cfg, hsc, hm, hsp, getKey, Bind.bind, Except.bind,
          pure, Except.pure, Except.ok.injEq] at h
        exact ⟨sc, m, specs, rfl, rfl, hsp, h.symm⟩

/-- Inversion of a successful sensor loop: one descriptor per entry, each
produced by `buildSensorSpec` from some entry of the list. -/
theorem buildSensorSpecs_ok {s : SimSettings}
    {l : List (String × SensorSettings)} {specs : List SensorSpec}
    (h : buildSensorSpecs s l = Except.ok specs) :
    specs.length = l.length ∧
      ∀ spec ∈ specs, ∃ p ∈ l, buildSensorSpec s p.1 p.2 = Except.ok spec := by
  induction l generalizing specs with
  | nil =>
    simp only [buildSensorSpecs, Except.ok.injEq] at h
    subst h
    simp
  | cons hd tl ih =>
    obtain ⟨u, c⟩ := hd
    simp only [buildSensorSpecs] at h
    cases h1 : buildSensorSpec s u c with
    | error e => rw [h1] at h; simp [Bind.bind, Except.bind] at h
    | ok spec =>
      rw [h1] at h
      cases h2 : buildSensorSpecs s tl with
      | error e => rw [h2] at h; simp [Bind.bind, Except.bind] at h
      | ok specs' =>
        rw [h2] at h
        simp only [Bind.bind, Except.bind, pure, Except.pure,
          Except.ok.injEq] at h
        subst h
        obtain ⟨hlen, hmem⟩ := ih h2
        refine ⟨by simp [hlen], ?_⟩
        intro spec' hsp
        rcases List.mem_cons.mp hsp with rfl | hsp
        · exact ⟨(u, c), List.mem_cons_self _ _, h1⟩
        · obtain ⟨p, hpl, hpe⟩ := hmem spec' hsp
          exact ⟨p, List.mem_cons_of_mem _ hpl, hpe⟩

/-- C3: the kind of the produced descriptor is decided purely by substring
tests on the identifier (`fisheye` first, then `equirect`, else a pinhole
camera), never by the sensor settings. -/
theorem sensor_kind_dispatch (s : SimSettings) (u : String) (c : SensorSettings)
    (out : SensorSpec) (h : buildSensorSpec s u c = Except.ok out) :
    out.kind = (if strContains u "fisheye" then SensorKind.fisheye
      else if strContains u "equirect" then SensorKind.equirect
      else SensorKind.camera) := by
  obtain ⟨hv, wv, hh, hw, h⟩ := buildSensorSpec_ok_inv h
  rw [buildSensorSpec_eq s u c hv wv hh hw] at h
  replace h := (Except.ok.inj h).symm
  subst h
  by_cases hf : strContains u "fisheye" <;>
    by_cases he : strContains u "equirect" <;>
    simp [hf, he, SensorSpec.kind]

/-- Every descriptor produced from one sensor entry carries the shared
`(height, width)` resolution. -/
theorem buildSensorSpec_resolution (s : SimSettings) (u : String)
    (c : SensorSettings) (out : SensorSpec) (hv wv : Int)
    (hh : s.height = some hv) (hw : s.width = some wv)
    (h : buildSensorSpec s u c = Except.ok out) :
    out.resolution = EVal.set (hv, wv) := by
  rw [buildSensorSpec_eq s u c hv wv hh hw] at h
  replace h := (Except.ok.inj h).symm
  subst h
  by_cases hf : strContains u "fisheye" <;>
    by_cases he : strContains u "equirect" <;>
    simp [hf, he, SensorSpec.resolution, create_camera_spec,
      create_fisheye_spec, create_equirect_spec, EVal.apply]

/-- C5: a produced descriptor has 4 channels exactly when the effective
sensor type (the merged record's entry, defaulting to COLOR when absent)
is COLOR, and 1 channel otherwise; an absent `sensor_type` key defaults
to COLOR, hence 4 channels. -/
theorem channels_from_sensor_type (s : SimSettings) (u : String)
    (c : SensorSettings) (out : SensorSpec)
    (h : buildSensorSpec s u c = Except.ok out) :
    out.channels = EVal.set
      (if (mergeSensorSettings default_sensor_settings c).sensor_type.getD
        SensorType.color = SensorType.color then 4 else 1) ∧
    (c.sensor_type = none → out.channels = EVal.set 4) := by
  obtain ⟨hv, wv, hh, hw, h⟩ := buildSensorSpec_ok_inv h
  rw [buildSensorSpec_eq s u c hv wv hh hw] at h
  replace h := (Except.ok.inj h).symm
  subst h
  constructor
  · by_cases hf : strContains u "fisheye" <;>
      by_cases he : strContains u "equirect" <;>
      simp [hf, he, SensorSpec.channels, create_camera_spec,
        create_fisheye_spec, create_equirect_spec, EVal.apply]
  · intro ht
    by_cases hf : strContains u "fisheye" <;>
      by_cases he : strContains u "equirect" <;>
      simp [hf, he, SensorSpec.channels, create_camera_spec,
        create_fisheye_spec, create_equirect_spec, EVal.apply,
        mergeSensorSettings, default_sensor_settings, ht]

/-- C1: for every settings map lacking the `scene` key, `make_cfg` fails
with the missing-required-field error (Python's `KeyError("scene")`) and
returns no configuration object — the `Except` result is an error, so no
partially constructed configuration escapes. -/
theorem make_cfg_missing_scene (s : SimSettings) (h : s.scene = none) :
    make_cfg s = Except.error (PyErr.keyError "scene") := by
  simp [make_cfg, h, getKey, Bind.bind, Except.bind]

/-- Witness for `make_cfg_missing_scene` at the empty settings map. -/
theorem make_cfg_missing_scene_witness :
    ({} : SimSettings).scene = none ∧
      make_cfg {} = Except.error (PyErr.keyError "scene") :=
  ⟨rfl, make_cfg_missing_scene {} rfl⟩

/-- C9: resolution is deterministic — two calls of `make_cfg` on the same
(un-mutated) settings map yield structurally equal outcomes, equal
configurations on success and the same failure otherwise. -/
theorem make_cfg_deterministic (s t : SimSettings) (h : s = t) :
    make_cfg s = make_cfg t := by
  rw [h]

/-- Witness for `make_cfg_deterministic` at the default settings table. -/
theorem make_cfg_deterministic_witness :
    make_cfg default_sim_settings = make_cfg default_sim_settings :=
  make_cfg_deterministic default_sim_settings default_sim_settings rfl

/-- C6: in every successful run, `scene_dataset_config_file`,
`physics_config_file`, `scene_light_setup` and `enable_physics` are copied
from the settings exactly when the key is present (absence leaves the
engine-default value untouched); `frustum_culling` is always assigned, with
`false` when the key is absent; and `gpu_device_id` is always `0`, whatever
the caller supplied. -/
theorem make_cfg_sim_fields (s : SimSettings) (cfg : Configuration)
    (h : make_cfg s = Except.ok cfg) :
    (∀ v, s.scene_dataset_config_file = some v →
        cfg.sim_cfg.scene_dataset_config_file = EVal.set v) ∧
    (s.scene_dataset_config_file = none →
        cfg.sim_cfg.scene_dataset_config_file = EVal.engineDefault) ∧
    (∀ v, s.physics_config_file = some v →
        cfg.sim_cfg.physics_config_file = EVal.set v) ∧
    (s.physics_config_file = none →
        cfg.sim_cfg.physics_config_file = EVal.engineDefault) ∧
    (∀ v, s.scene_light_setup = some v →
        cfg.sim_cfg.scene_light_setup = EVal.set v) ∧
    (s.scene_light_setup = none →
        cfg.sim_cfg.scene_light_setup = EVal.engineDefault) ∧
    (∀ v, s.enable_physics = some v →
        cfg.sim_cfg.enable_physics = EVal.set v) ∧
    (s.enable_physics = none →
        cfg.sim_cfg.enable_physics = EVal.engineDefault) ∧
    cfg.sim_cfg.frustum_culling = s.frustum_culling.getD false ∧
    (s.frustum_culling = none → cfg.sim_cfg.frustum_culling = false) ∧
    cfg.sim_cfg.gpu_device_id = 0 := by
  obtain ⟨sc, m, specs, _, _, _, hcfg⟩ := make_cfg_ok_inv h
  subst hcfg
  refine ⟨?_, ?_, ?_, ?_, ?_, ?_, ?_, ?_, ?_, ?_, ?_⟩ <;>
    simp_all [EVal.apply]

/-- Witness for `make_cfg_sim_fields` at a concrete settings map that sets
`enable_physics` and a non-zero `gpu_device_id` and omits the rest. -/
theorem make_cfg_sim_fields_witness :
    ∃ cfg, make_cfg c6Settings = Except.ok cfg ∧
      cfg.sim_cfg.gpu_device_id = 0 ∧
      cfg.sim_cfg.enable_physics = EVal.set true ∧
      cfg.sim_cfg.physics_config_file = EVal.engineDefault ∧
      cfg.sim_cfg.frustum_culling = false := by
  refine ⟨_, rfl, ?_, ?_, ?_, ?_⟩
  · exact (make_cfg_sim_fields c6Settings _ rfl).2.2.2.2.2.2.2.2.2.2
  · exact (make_cfg_sim_fields c6Settings _ rfl).2.2.2.2.2.2.1 true rfl
  · exact (make_cfg_sim_fields c6Settings _ rfl).2.2.2.1 rfl
  · exact (make_cfg_sim_fields c6Settings _ rfl).2.2.2.2.2.2.2.2.2.1 rfl

/-- C4: in every successful run with n sensor entries, all n produced
descriptors carry the shared resolution `(settings height, settings width)`
— one descriptor per entry and no per-sensor resolution override. -/
theorem make_cfg_resolution_shared (s : SimSettings) (hv wv : Int)
    (m : List (String × SensorSettings)) (cfg : Configuration)
    (hh : s.height = some hv) (hw : s.width = some wv)
    (hm : s.sensors = some m) (hc : make_cfg s = Except.ok cfg) :
    ∀ ag ∈ cfg.agents, ag.sensor_specifications.length = m.length ∧
      ∀ spec ∈ ag.sensor_specifications,
        spec.resolution = EVal.set (hv, wv) := by
  obtain ⟨sc, m', specs, hsc', hm', hsp, hcfg⟩ := make_cfg_ok_inv hc
  rw [hm] at hm'
  injection hm' with hm'
  subst hm'
  subst hcfg
  intro ag hag
  simp only [List.mem_singleton] at hag
  subst hag
  obtain ⟨hlen, hmem⟩ := buildSensorSpecs_ok hsp
  refine ⟨hlen, ?_⟩
  intro spec hspec
  obtain ⟨p, _, hpe⟩ := hmem spec hspec
  exact buildSensorSpec_resolution s p.1 p.2 spec hv wv hh hw hpe

/-- Witness for `make_cfg_resolution_shared`: two sensors, both 480×640. -/
theorem make_cfg_resolution_shared_witness :
    ∃ cfg, make_cfg twoSensorSettings = Except.ok cfg ∧
      ∀ ag ∈ cfg.agents,
        ag.sensor_specifications.length = twoSensorList.length ∧
          ∀ spec ∈ ag.sensor_specifications,
            spec.resolution = EVal.set ((480 : Int), (640 : Int)) :=
  ⟨_, rfl, make_cfg_resolution_shared twoSensorSettings 480 640
    twoSensorList _ rfl rfl rfl rfl⟩

/-- C7: every successful run returns exactly one agent descriptor; its
sensor list is the full ordered list produced by the sensor loop, and its
action table is the hardcoded constant `move_forward` (0.25), `turn_left`
(10), `turn_right` (10), independent of the settings. -/
theorem make_cfg_single_agent (s : SimSettings) (cfg : Configuration)
    (h : make_cfg s = Except.ok cfg) :
    ∃ ag, cfg.agents = [ag] ∧
      ag.action_space =
        [("move_forward", ⟨"move_forward", ⟨0.25⟩⟩),
         ("turn_left", ⟨"turn_left", ⟨10⟩⟩),
         ("turn_right", ⟨"turn_right", ⟨10⟩⟩)] ∧
      ∃ m specs, s.sensors = some m ∧
        buildSensorSpecs s m = Except.ok specs ∧
        ag.sensor_specifications = specs := by
  obtain ⟨sc, m, specs, hsc, hm, hsp, hcfg⟩ := make_cfg_ok_inv h
  subst hcfg
  exact ⟨_, rfl, rfl, m, specs, hm, hsp, rfl⟩

/-- Witness for `make_cfg_single_agent` at the default settings table. -/
theorem make_cfg_single_agent_witness :
    ∃ cfg, make_cfg default_sim_settings = Except.ok cfg ∧
      ∃ ag, cfg.agents = [ag] ∧
        ag.action_space =
          [("move_forward", ⟨"move_forward", ⟨0.25⟩⟩),
           ("turn_left", ⟨"turn_left", ⟨10⟩⟩),
           ("turn_right", ⟨"turn_right", ⟨10⟩⟩)] ∧
        ∃ m specs, default_sim_settings.sensors = some m ∧
          buildSensorSpecs default_sim_settings m = Except.ok specs ∧
          ag.sensor_specifications = specs :=
  ⟨_, rfl, make_cfg_single_agent default_sim_settings _ rfl⟩

/-- Witness for `sensor_kind_dispatch`: a uuid containing `fisheye`. -/
theorem sensor_kind_dispatch_witness :
    (SensorSpec.fisheye (create_fisheye_spec
      { uuid := some "my_fisheye", position := some ⟨0, 1.5, 0⟩,
        orientation := some ⟨0, 0, 0⟩, resolution := some (2, 3),
        sensor_type := some SensorType.color, channels := some 4 })).kind
      = (if strContains "my_fisheye" "fisheye" then SensorKind.fisheye
         else if strContains "my_fisheye" "equirect" then SensorKind.equirect
         else SensorKind.camera) :=
  sensor_kind_dispatch { height := some 2, width := some 3 } "my_fisheye"
    emptySensorSettings _ rfl

/-- Witness for `channels_from_sensor_type`: a DEPTH sensor, 1 channel. -/
theorem channels_from_sensor_type_witness :
    (SensorSpec.camera (create_camera_spec
        { uuid := some "d", hfov := some 90, position := some ⟨0, 1.5, 0⟩,
          orientation := some ⟨0, 0, 0⟩, resolution := some (2, 3),
          sensor_type := some SensorType.depth,
          sensor_subtype := some SensorSubType.pinhole,
          channels := some 1 })).channels = EVal.set
      (if (mergeSensorSettings default_sensor_settings
          ({ sensor_type := some SensorType.depth } : SensorSettings)).sensor_type.getD
          SensorType.color = SensorType.color then 4 else 1) ∧
    (({ sensor_type := some SensorType.depth } : SensorSettings).sensor_type = none →
      (SensorSpec.camera (create_camera_spec
        { uuid := some "d", hfov := some 90, position := some ⟨0, 1.5, 0⟩,
          orientation := some ⟨0, 0, 0⟩, resolution := some (2, 3),
          sensor_type := some SensorType.depth,
          sensor_subtype := some SensorSubType.pinhole,
          channels := some 1 })).channels = EVal.set 4) :=
  channels_from_sensor_type { height := some 2, width := some 3 } "d"
    { sensor_type := some SensorType.depth } _ rfl

/-- C2: the effective per-sensor record is the default template with every
key present in the sensor's own settings overriding the default — a sensor
with an empty options record keeps exactly the template values (hfov 90,
position (0, 1.5, 0), orientation (0, 0, 0)), and a pinhole sensor
supplying hfov 75 yields a descriptor whose field of view is 75, not 90. -/
theorem sensor_defaults_and_overrides (s : SimSettings) (u : String)
    (c : SensorSettings) (q : ℚ) (hv wv : Int)
    (hq : c.hfov = some q) (hh : s.height = some hv) (hw : s.width = some wv)
    (hf : strContains u "fisheye" = false)
    (he : strContains u "equirect" = false) :
    (∀ c' : SensorSettings, c'.hfov = none →
        (mergeSensorSettings default_sensor_settings c').hfov = some 90) ∧
    (∀ c' : SensorSettings, c'.position = none →
        (mergeSensorSettings default_sensor_settings c').position
          = some ⟨0, 1.5, 0⟩) ∧
    (∀ c' : SensorSettings, c'.orientation = none →
        (mergeSensorSettings default_sensor_settings c').orientation
          = some ⟨0, 0, 0⟩) ∧
    (∀ (c' : SensorSettings) v, c'.hfov = some v →
        (mergeSensorSettings default_sensor_settings c').hfov = some v) ∧
    (∀ (c' : SensorSettings) v, c'.position = some v →
        (mergeSensorSettings default_sensor_settings c').position = some v) ∧
    (∀ (c' : SensorSettings) v, c'.orientation = some v →
        (mergeSensorSettings default_sensor_settings c').orientation = some v) ∧
    (∀ (c' : SensorSettings) v, c'.sensor_type = some v →
        (mergeSensorSettings default_sensor_settings c').sensor_type = some v) ∧
    (∀ (c' : SensorSettings) v, c'.sensor_subtype = some v →
        (mergeSensorSettings default_sensor_settings c').sensor_subtype
          = some v) ∧
    mergeSensorSettings default_sensor_settings emptySensorSettings
      = default_sensor_settings ∧
    (∃ spec, buildSensorSpec s u c = Except.ok (SensorSpec.camera spec) ∧
        spec.hfov = EVal.set q) := by
  refine ⟨?_, ?_, ?_, ?_, ?_, ?_, ?_, ?_, ?_, ?_⟩
  · intro c' h'; simp [mergeSensorSettings, default_sensor_settings, h']
  · intro c' h'; simp [mergeSensorSettings, default_sensor_settings, h']
  · intro c' h'; simp [mergeSensorSettings, default_sensor_settings, h']
  · intro c' v h'; simp [mergeSensorSettings, h']
  · intro c' v h'; simp [mergeSensorSettings, h']
  · intro c' v h'; simp [mergeSensorSettings, h']
  · intro c' v h'; simp [mergeSensorSettings, h']
  · intro c' v h'; simp [mergeSensorSettings, h']
  · rfl
  · rw [buildSensorSpec_eq s u c hv wv hh hw]
    simp only [hf, he, Bool.false_eq_true, if_false]
    exact ⟨_, rfl, by simp [create_camera_spec, EVal.apply, hq]⟩

/-- Witness for `sensor_defaults_and_overrides`: `hfov: 75` wins. -/
theorem sensor_defaults_and_overrides_witness :
    mergeSensorSettings default_sensor_settings emptySensorSettings
      = default_sensor_settings ∧
    ∃ spec, buildSensorSpec { height := some 480, width := some 640 }
        "color_sensor" ({ hfov := some 75 } : SensorSettings)
        = Except.ok (SensorSpec.camera spec) ∧ spec.hfov = EVal.set 75 := by
  have h := sensor_defaults_and_overrides
    { height := some 480, width := some 640 } "color_sensor"
    ({ hfov := some 75 } : SensorSettings) 75 480 640 rfl rfl rfl rfl rfl
  exact ⟨h.2.2.2.2.2.2.2.2.1, h.2.2.2.2.2.2.2.2.2⟩

/-- C8: `create_fisheye_spec` populates the fixed double-sphere constants
xi = -0.27, alpha = 0.57, focal length (364.84, 364.86) and an unset
(centered) principal-point offset before applying the caller's keyword
arguments, so a caller-supplied value for one of those fields wins; and
every descriptor `make_cfg` builds for a uuid containing `fisheye` is a
fisheye spec carrying those constants. -/
theorem fisheye_lens_constants (kw : FisheyeKw) (s : SimSettings)
    (u : String) (c : SensorSettings)
    (hu : strContains u "fisheye" = true) :
    (create_fisheye_spec kw).sensor_model_type
        = EVal.set FisheyeSensorModelType.doubleSphere ∧
    (kw.xi = none → (create_fisheye_spec kw).xi = EVal.set (-0.27)) ∧
    (∀ v, kw.xi = some v → (create_fisheye_spec kw).xi = EVal.set v) ∧
    (kw.alpha = none → (create_fisheye_spec kw).alpha = EVal.set 0.57) ∧
    (∀ v, kw.alpha = some v → (create_fisheye_spec kw).alpha = EVal.set v) ∧
    (kw.focal_length = none →
        (create_fisheye_spec kw).focal_length = EVal.set (364.84, 364.86)) ∧
    (∀ v, kw.focal_length = some v →
        (create_fisheye_spec kw).focal_length = EVal.set v) ∧
    (kw.principal_point_offset = none →
        (create_fisheye_spec kw).principal_point_offset = EVal.set none) ∧
    (∀ v, kw.principal_point_offset = some v →
        (create_fisheye_spec kw).principal_point_offset = EVal.set v) ∧
    (∀ out, buildSensorSpec s u c = Except.ok out →
      ∃ f, out = SensorSpec.fisheye f ∧ f.xi = EVal.set (-0.27) ∧
        f.alpha = EVal.set 0.57 ∧
        f.focal_length = EVal.set (364.84, 364.86) ∧
        f.principal_point_offset = EVal.set none) := by
  refine ⟨rfl, ?_, ?_, ?_, ?_, ?_, ?_, ?_, ?_, ?_⟩
  · intro h'; simp [create_fisheye_spec, EVal.apply, h']
  · intro v h'; simp [create_fisheye_spec, EVal.apply, h']
  · intro h'; simp [create_fisheye_spec, EVal.apply, h']
  · intro v h'; simp [create_fisheye_spec, EVal.apply, h']
  · intro h'; simp [create_fisheye_spec, EVal.apply, h']
  · intro v h'; simp [create_fisheye_spec, EVal.apply, h']
  · intro h'; simp [create_fisheye_spec, EVal.apply, h']
  · intro v h'; simp [create_fisheye_spec, EVal.apply, h']
  · intro out hout
    obtain ⟨hv, wv, hh, hw, hout⟩ := buildSensorSpec_ok_inv hout
    rw [buildSensorSpec_eq s u c hv wv hh hw] at hout
    replace hout := (Except.ok.inj hout).symm
    subst hout
    simp only [hu, if_true]
    exact ⟨_, rfl,
      by simp [create_fisheye_spec, EVal.apply],
      by simp [create_fisheye_spec, EVal.apply],
      by simp [create_fisheye_spec, EVal.apply],
      by simp [create_fisheye_spec, EVal.apply]⟩

/-- Witness for `fisheye_lens_constants` at empty keyword arguments. -/
theorem fisheye_lens_constants_witness :
    (create_fisheye_spec {}).xi = EVal.set (-0.27) ∧
    (create_fisheye_spec {}).alpha = EVal.set 0.57 ∧
    (create_fisheye_spec {}).focal_length = EVal.set (364.84, 364.86) ∧
    (create_fisheye_spec {}).principal_point_offset = EVal.set none ∧
    ∃ f, SensorSpec.fisheye (create_fisheye_spec
        { uuid := some "fisheye_cam", position := some ⟨0, 1.5, 0⟩,
          orientation := some ⟨0, 0, 0⟩, resolution := some (2, 3),
          sensor_type := some SensorType.color, channels := some 4 })
        = SensorSpec.fisheye f ∧ f.xi = EVal.set (-0.27) ∧
      f.alpha = EVal.set 0.57 ∧
      f.focal_length = EVal.set (364.84, 364.86) ∧
      f.principal_point_offset = EVal.set none := by
  have h := fisheye_lens_constants {} { height := some 2, width := some 3 }
    "fisheye_cam" emptySensorSettings rfl
  exact ⟨h.2.1 rfl, h.2.2.2.1 rfl, h.2.2.2.2.2.1 rfl,
    h.2.2.2.2.2.2.2.1 rfl, h.2.2.2.2.2.2.2.2.2 _ rfl⟩

/-- C10: `make_cfg` reads `sensors`, `height` and `width` from the input
unconditionally and never merges `default_sim_settings` in: with `scene`
present, a map without `sensors` fails with `KeyError "sensors"`, and with
at least one sensor entry a map without `height` (resp. `width`) fails with
`KeyError "height"` (resp. `"width"`) — even though `default_sim_settings`
defines 640, 480 and a `color_sensor` entry for exactly those keys. -/
theorem make_cfg_requires_explicit_keys (s : SimSettings) (sc : String)
    (hsc : s.scene = some sc) :
    (s.sensors = none →
        make_cfg s = Except.error (PyErr.keyError "sensors")) ∧
    (∀ u c rest, s.sensors = some ((u, c) :: rest) → s.height = none →
        make_cfg s = Except.error (PyErr.keyError "height")) ∧
    (∀ u c rest hv, s.sensors = some ((u, c) :: rest) →
        s.height = some hv → s.width = none →
        make_cfg s = Except.error (PyErr.keyError "width")) ∧
    default_sim_settings.width = some 640 ∧
    default_sim_settings.height = some 480 ∧
    default_sim_settings.sensors = some [("color_sensor", emptySensorSettings)] := by
  refine ⟨?_, ?_, ?_, rfl, rfl, rfl⟩
  · intro hm
    simp [make_cfg, hsc, hm, getKey, Bind.bind, Except.bind]
  · intro u c rest hm hh
    have h1 := buildSensorSpec_missing_height s u c hh
    simp [make_cfg, hsc, hm, getKey, Bind.bind, Except.bind,
      buildSensorSpecs, h1]
  · intro u c rest hv hm hh hw
    have h1 := buildSensorSpec_missing_width s u c hv hh hw
    simp [make_cfg, hsc, hm, getKey, Bind.bind, Except.bind,
      buildSensorSpecs, h1]

/-- Witness for `make_cfg_requires_explicit_keys` at three concrete maps. -/
theorem make_cfg_requires_explicit_keys_witness :
    make_cfg settingsOnlyScene = Except.error (PyErr.keyError "sensors") ∧
    make_cfg settingsNoHeight = Except.error (PyErr.keyError "height") ∧
    make_cfg settingsNoWidth = Except.error (PyErr.keyError "width") := by
  refine ⟨?_, ?_, ?_⟩
  · exact (make_cfg_requires_explicit_keys settingsOnlyScene "x" rfl).1 rfl
  · exact (make_cfg_requires_explicit_keys settingsNoHeight "x" rfl).2.1
      "a" emptySensorSettings [] rfl rfl
  · exact (make_cfg_requires_explicit_keys settingsNoWidth "x" rfl).2.2.1
      "a" emptySensorSettings [] 480 rfl rfl rfl
